import Mathlib

/-!
Verification of the provider-execution core of the VibeBase repository.

The definitions below are shallow embeddings of the Rust functions in
`src-tauri/src/services/` (template.rs, executor.rs, providers/mod.rs,
providers/openai.rs, keychain.rs) and of the data model in
`src-tauri/src/models/`.  Machine floats (`f32`/`f64`) are modelled as
rationals, `Result<T, String>` as `Except String T`, `HashMap` as an
association list, and the single Rust regex
`\{\{([a-zA-Z_][a-zA-Z0-9_]*)\}\}` as an explicit left-to-right scanner
over character lists.
-/

namespace VibeBase

/-- ASCII class `[a-zA-Z_]` of the placeholder regex. -/
def isIdentStart (c : Char) : Bool := c.isAlpha || c == '_'

/-- ASCII class `[a-zA-Z0-9_]` of the placeholder regex. -/
def isIdentChar (c : Char) : Bool := c.isAlphanum || c == '_'

/-- The opening-brace character (code point 123). -/
def lb : Char := Char.ofNat 123

/-- The closing-brace character (code point 125). -/
def rb : Char := Char.ofNat 125

/-- Attempt to match the regex `\x7b\x7b([a-zA-Z_][a-zA-Z0-9_]*)\x7d\x7d`
at the head of `cs`; on success return the captured identifier and the
remainder of the input after the match (regex `captures_iter` semantics). -/
def matchPlaceholder (cs : List Char) : Option (List Char × List Char) :=
  match cs with
  | a :: b :: c :: rest =>
    if a == lb && b == lb && isIdentStart c then
      match rest.dropWhile isIdentChar with
      | d :: e :: rest2 =>
        if d == rb && e == rb then some (c :: rest.takeWhile isIdentChar, rest2)
        else none
      | _ => none
    else none
  | _ => none

/-- Left-to-right, non-overlapping scan for placeholder captures, as
`regex::Regex::captures_iter` performs over the template in
`template.rs`.  `fuel` bounds the recursion; the wrapper supplies
`cs.length`, which is sufficient since every step consumes at least one
character. -/
def findPlaceholdersFuel : Nat → List Char → List String
  | 0, _ => []
  | fuel + 1, cs =>
    match matchPlaceholder cs with
    | some (name, rest) => String.mk name :: findPlaceholdersFuel fuel rest
    | none =>
      match cs with
      | [] => []
      | _ :: cs2 => findPlaceholdersFuel fuel cs2

/-- All placeholder identifiers captured in a character list, in order of
occurrence (with multiplicity). -/
def findPlaceholders (cs : List Char) : List String :=
  findPlaceholdersFuel cs.length cs

/-- Rust `str::replace`: replace every non-overlapping occurrence of
`pat` in `s` by `rep`, scanning left to right.  `fuel` bounds the
recursion; the wrapper supplies `s.length`, sufficient because every
step consumes at least one character of `s` (the patterns built by
`replace_variables` are never empty). -/
def replaceAllFuel : Nat → List Char → List Char → List Char → List Char
  | 0, s, _, _ => s
  | fuel + 1, s, pat, rep =>
    match s with
    | [] => []
    | c :: cs =>
      if pat.isPrefixOf (c :: cs) then
        rep ++ replaceAllFuel fuel (List.drop pat.length (c :: cs)) pat rep
      else
        c :: replaceAllFuel fuel cs pat rep

/-- Wrapper choosing sufficient fuel for `replaceAllFuel`. -/
def replaceAll (s pat rep : List Char) : List Char :=
  replaceAllFuel s.length s pat rep

/-- The literal search pattern `format!("\x7b\x7b\x7b\x7b\x7b\x7d\x7d\x7d\x7d\x7d", var_name)`
built in `template.rs`, i.e. the identifier wrapped in double braces. -/
def patOf (name : String) : List Char :=
  lb :: lb :: (name.toList ++ [rb, rb])

/-- The body of the `for cap in regex.captures_iter(template)` loop of
`replace_variables` in `template.rs`: walk the captures in order,
substituting matched variables into the evolving `result` and appending
unmatched names to `missing_vars`. -/
def substLoop (vars : List (String × String)) :
    List String → List Char → List String → List Char × List String
  | [], result, missing_vars => (result, missing_vars)
  | name :: caps, result, missing_vars =>
    match List.lookup name vars with
    | some value =>
      substLoop vars caps (replaceAll result (patOf name) value.toList) missing_vars
    | none =>
      substLoop vars caps result (missing_vars ++ [name])

/-- `replace_variables` from `services/template.rs`: substitute every
`\x7b\x7bident\x7d\x7d` placeholder that has a key in `vars`; if any
placeholder has no key, return the `Missing variables:` error joining the
collected names with `, `. -/
def replace_variables (template : String) (vars : List (String × String)) :
    Except String String :=
  if (substLoop vars (findPlaceholders template.toList) template.toList []).2.isEmpty then
    Except.ok (String.mk (substLoop vars (findPlaceholders template.toList) template.toList []).1)
  else
    Except.error ("Missing variables: " ++ String.intercalate ", "
      (substLoop vars (findPlaceholders template.toList) template.toList []).2)

/-- `MessageRole` from `models/prompt.rs`. -/
inductive MessageRole where
  | System
  | User
  | Assistant
deriving DecidableEq

/-- `Message` from `models/prompt.rs`. -/
structure Message where
  role : MessageRole
  content : String
deriving DecidableEq

/-- `format!("\x7b:?\x7d", msg.role).to_lowercase()` from `executor.rs`. -/
def roleName : MessageRole → String
  | MessageRole.System => "system"
  | MessageRole.User => "user"
  | MessageRole.Assistant => "assistant"

/-- `OpenAIMessage` from `models/execution.rs`. -/
structure OpenAIMessage where
  role : String
  content : String
deriving DecidableEq

/-- `OpenAIUsage` from `models/execution.rs`. -/
structure OpenAIUsage where
  prompt_tokens : Nat
  completion_tokens : Nat
  total_tokens : Nat
deriving DecidableEq

/-- `OpenAIChoice` from `models/execution.rs`. -/
structure OpenAIChoice where
  message : OpenAIMessage
deriving DecidableEq

/-- `OpenAIResponse` from `models/execution.rs`. -/
structure OpenAIResponse where
  id : String
  choices : List OpenAIChoice
  usage : OpenAIUsage
deriving DecidableEq

/-- The variable-substitution stage of `Executor::execute`
(`executor.rs` lines 26-33): for each message, run `replace_variables`
with the `?` operator, so the first failing message aborts the loop and
its error is returned unchanged. -/
def buildMessages (msgs : List Message) (vars : List (String × String)) :
    Except String (List OpenAIMessage) :=
  match msgs with
  | [] => Except.ok []
  | msg :: rest =>
    match replace_variables msg.content vars with
    | Except.error e => Except.error e
    | Except.ok content =>
      match buildMessages rest vars with
      | Except.error e => Except.error e
      | Except.ok tail =>
        Except.ok ({ role := roleName msg.role, content := content } :: tail)

/-- `ModelParameters` from `models/prompt.rs` (`f32` values as `ℚ`). -/
structure ModelParameters where
  temperature : Option ℚ
  top_p : Option ℚ
  max_tokens : Option Nat
deriving DecidableEq

/-- Temperature resolution from `Executor::execute` (`executor.rs` lines
36-41): `prompt.config.parameters.as_ref().and_then(|p| p.temperature).unwrap_or(0.7)`. -/
def resolveTemperature (parameters : Option ModelParameters) : ℚ :=
  (parameters.bind ModelParameters.temperature).getD 0.7

/-- `Provider` enum from `models/prompt.rs`.  The `Custom` variant is
matched by `execute_with_provider` in `services/providers/mod.rs` and
listed in the spec's `ProviderKind` enumeration, so it is included here
even though the `models/prompt.rs` declaration omits it. -/
inductive Provider where
  | OpenAI
  | Anthropic
  | DeepSeek
  | OpenRouter
  | Ollama
  | AzureOpenAI
  | Google
  | AiHubMix
  | GitHub
  | Custom
deriving DecidableEq

/-- Result of the dispatch in `services/providers/mod.rs`: either an
invocation of one of the two adapters (recording every argument the
adapter receives) or an error returned without any adapter or network
call. -/
inductive DispatchResult where
  | openaiCall (model : String) (messages : List OpenAIMessage) (temperature : ℚ)
      (api_key : String) (base_url : Option String) (provider_name : String)
  | anthropicCall (model : String) (messages : List OpenAIMessage) (temperature : ℚ)
      (api_key : String)
  | error (msg : String)
deriving DecidableEq

/-- `execute_with_provider` from `services/providers/mod.rs`, with the
adapter calls reified as `DispatchResult` constructors. -/
def execute_with_provider (provider : Provider) (model : String)
    (messages : List OpenAIMessage) (temperature : ℚ) (api_key : String)
    (base_url : Option String) : DispatchResult :=
  match provider with
  | Provider.OpenAI =>
    DispatchResult.openaiCall model messages temperature api_key none "OpenAI"
  | Provider.Anthropic =>
    DispatchResult.anthropicCall model messages temperature api_key
  | Provider.DeepSeek =>
    DispatchResult.openaiCall model messages temperature api_key
      (some (base_url.getD "https://api.deepseek.com")) "DeepSeek"
  | Provider.OpenRouter =>
    DispatchResult.openaiCall model messages temperature api_key
      (some (base_url.getD "https://openrouter.ai/api/v1")) "OpenRouter"
  | Provider.Ollama =>
    DispatchResult.openaiCall model messages temperature ""
      (some (base_url.getD "http://localhost:11434/v1")) "Ollama"
  | Provider.AiHubMix =>
    DispatchResult.openaiCall model messages temperature api_key
      (some (base_url.getD "https://aihubmix.com/v1")) "AiHubMix"
  | Provider.Custom =>
    match base_url with
    | none => DispatchResult.error "Custom provider requires base_url"
    | some url =>
      DispatchResult.openaiCall model messages temperature api_key (some url) "Custom"
  | Provider.Google =>
    DispatchResult.error "Google Gemini API format is different, requires separate implementation"
  | Provider.GitHub =>
    DispatchResult.error "GitHub Copilot not yet implemented"
  | Provider.AzureOpenAI =>
    DispatchResult.error "Azure OpenAI requires deployment-specific URL configuration"

/-- Rust `str::contains` for string patterns: `pat` occurs as a
contiguous substring of `s`. -/
def containsSubstr : List Char → List Char → Bool
  | [], pat => pat.isEmpty
  | c :: cs, pat => pat.isPrefixOf (c :: cs) || containsSubstr cs pat

/-- Request-URL construction from `execute_with_name` in
`services/providers/openai.rs` lines 24-25:
`format!("\x7b\x7d/chat/completions", base_url.unwrap_or("https://api.openai.com/v1"))`. -/
def buildUrl (base_url : Option String) : String :=
  let url_base := base_url.getD "https://api.openai.com/v1"
  url_base ++ "/chat/completions"

/-- The headers added to the outgoing request by `execute_with_name` in
`services/providers/openai.rs` lines 49-65: `Authorization` when the
API key is non-empty, and the OpenRouter identification headers when the
base URL contains `openrouter.ai`. -/
def buildHeaders (api_key : String) (url_base : String) : List (String × String) :=
  (if api_key == "" then [] else [("Authorization", "Bearer " ++ api_key)]) ++
  (if containsSubstr url_base.toList "openrouter.ai".toList then
    [("HTTP-Referer", "https://vibebase.dev"), ("X-Title", "VibeBase")]
  else [])

/-- Outcome of the response-extraction tail of `execute_with_name`:
either the normal `(output, usage)` pair, or a Rust panic.  A returned
`Err` at this stage does not occur in the source. -/
inductive AdapterResult where
  | success (output : String) (usage : OpenAIUsage)
  | panicked (msg : String)
deriving DecidableEq

/-- `services/providers/openai.rs` lines 86-87 applied to an
already-parsed response: `api_response.choices[0].message.content`.
Rust `Vec` indexing panics when the index is out of bounds, which the
embedding makes explicit. -/
def extractOutput (api_response : OpenAIResponse) : AdapterResult :=
  match api_response.choices with
  | [] => AdapterResult.panicked "index out of bounds: the len is 0 but the index is 0"
  | choice :: _ => AdapterResult.success choice.message.content api_response.usage

/-- Failure modes of the external `keyring` crate's `get_password`,
as observed by `services/keychain.rs`: the entry does not exist, or the
platform secret store itself failed.  The crate is an external
collaborator; only its error surface is modelled. -/
inductive KeyringError where
  | noEntry
  | platformFailure (detail : String)
deriving DecidableEq

/-- The `Display` text of a `keyring` error, used by the `format!`
calls in `keychain.rs`. -/
def KeyringError.message : KeyringError → String
  | KeyringError.noEntry => "No matching entry found in secure storage"
  | KeyringError.platformFailure detail => detail

/-- `KeychainService::get_api_key` from `services/keychain.rs` lines
19-26, parameterised by the outcomes of the two external `keyring`
calls (`Entry::new` and `get_password`): an `Entry::new` failure maps to
`Keychain error: ...`, and every `get_password` failure — no-entry and
platform failure alike — maps through the single `map_err` to
`API key not found: ...`. -/
def get_api_key (entry_new : Except KeyringError Unit)
    (get_password : Except KeyringError String) : Except String String :=
  match entry_new with
  | Except.error e => Except.error ("Keychain error: " ++ e.message)
  | Except.ok _ =>
    match get_password with
    | Except.ok password => Except.ok password
    | Except.error e => Except.error ("API key not found: " ++ e.message)

/-- The `(input_price, output_price)` table inside `calculate_cost` in
`services/executor.rs` lines 81-104 (prices per million tokens, `f64`
literals as exact rationals).  The final wildcard arm of the source
covers `AzureOpenAI` and `Custom`. -/
def priceTable (provider : Provider) (model : String) : ℚ × ℚ :=
  match provider with
  | Provider.OpenAI =>
    if model == "gpt-4o" then (2.5, 10.0)
    else if model == "gpt-4o-mini" then (0.15, 0.60)
    else if model == "gpt-4-turbo" then (10.0, 30.0)
    else if model == "gpt-4" then (30.0, 60.0)
    else if model == "gpt-3.5-turbo" then (0.5, 1.5)
    else (0.0, 0.0)
  | Provider.Anthropic =>
    if model == "claude-3-opus-20240229" then (15.0, 75.0)
    else if model == "claude-3-sonnet-20240229" then (3.0, 15.0)
    else if model == "claude-3-haiku-20240307" then (0.25, 1.25)
    else if model == "claude-3-5-sonnet-20241022" then (3.0, 15.0)
    else (0.0, 0.0)
  | Provider.DeepSeek => (0.14, 0.28)
  | Provider.Ollama => (0.0, 0.0)
  | Provider.OpenRouter => (0.0, 0.0)
  | Provider.AiHubMix => (0.0, 0.0)
  | Provider.Google => (0.0, 0.0)
  | Provider.GitHub => (0.0, 0.0)
  | _ => (0.0, 0.0)

/-- Whether `(provider, model)` reaches an explicitly listed arm of the
price table (as opposed to one of the `_ => (0.0, 0.0)` default arms of
the source). -/
def inPriceTable (provider : Provider) (model : String) : Bool :=
  match provider with
  | Provider.OpenAI =>
    model == "gpt-4o" || model == "gpt-4o-mini" || model == "gpt-4-turbo" ||
    model == "gpt-4" || model == "gpt-3.5-turbo"
  | Provider.Anthropic =>
    model == "claude-3-opus-20240229" || model == "claude-3-sonnet-20240229" ||
    model == "claude-3-haiku-20240307" || model == "claude-3-5-sonnet-20241022"
  | Provider.DeepSeek => true
  | Provider.Ollama => true
  | Provider.OpenRouter => true
  | Provider.AiHubMix => true
  | Provider.Google => true
  | Provider.GitHub => true
  | _ => false

/-- `calculate_cost` from `services/executor.rs` lines 80-110. -/
def calculate_cost (model : String) (provider : Provider)
    (input_tokens : Nat) (output_tokens : Nat) : ℚ :=
  let prices := priceTable provider model
  let cost_input := ((input_tokens : ℚ) / 1000000) * prices.1
  let cost_output := ((output_tokens : ℚ) / 1000000) * prices.2
  cost_input + cost_output


/-- The `missing_vars` accumulator of the capture loop in `template.rs`
collects, in order, exactly the captured names that have no key in
`vars`. -/
theorem substLoop_snd (vars : List (String × String)) (caps : List String) :
    ∀ (result : List Char) (missing : List String),
      (substLoop vars caps result missing).2
        = missing ++ caps.filter (fun n => (List.lookup n vars).isNone) := by
  induction caps with
  | nil => intro result missing; simp [substLoop]
  | cons name caps ih =>
    intro result missing
    cases h : List.lookup name vars with
    | none => simp [substLoop, h, ih]
    | some v => simp [substLoop, h, ih]

/-- C3 (amended): if every placeholder occurrence captured in the
template has a matching key, `replace_variables` succeeds; otherwise it
fails with the `Missing variables:` error listing exactly the unmatched
captures in template order with multiplicity, and no substituted string
is returned. -/
theorem replace_variables_exact (template : String) (vars : List (String × String)) :
    (((findPlaceholders template.toList).filter fun n => (List.lookup n vars).isNone) = [] →
      ∃ s, replace_variables template vars = Except.ok s)
    ∧ (((findPlaceholders template.toList).filter fun n => (List.lookup n vars).isNone) ≠ [] →
      replace_variables template vars
        = Except.error ("Missing variables: " ++ String.intercalate ", "
            ((findPlaceholders template.toList).filter fun n => (List.lookup n vars).isNone))) := by
  have h2 : (substLoop vars (findPlaceholders template.toList) template.toList []).2
      = (findPlaceholders template.toList).filter fun n => (List.lookup n vars).isNone :=
    (substLoop_snd vars (findPlaceholders template.toList) template.toList []).trans
      (List.nil_append _)
  constructor
  · intro hnil
    refine ⟨String.mk (substLoop vars (findPlaceholders template.toList) template.toList []).1, ?_⟩
    unfold replace_variables
    rw [h2, hnil]
    rfl
  · intro hne
    rcases hc : (findPlaceholders template.toList).filter
        (fun n => (List.lookup n vars).isNone) with _ | ⟨a, l⟩
    · exact absurd hc hne
    · unfold replace_variables
      rw [h2, hc]
      rfl

theorem replace_variables_exact_witness :
    (∃ s, replace_variables "Hello \x7b\x7bname\x7d\x7d!" [("name", "Ada")] = Except.ok s)
    ∧ replace_variables "Hi \x7b\x7bx\x7d\x7d" [] = Except.error "Missing variables: x" :=
  ⟨(replace_variables_exact "Hello \x7b\x7bname\x7d\x7d!" [("name", "Ada")]).1 (by decide),
   (replace_variables_exact "Hi \x7b\x7bx\x7d\x7d" []).2 (by decide)⟩

/-- C3 (counterexample): a template whose unmatched placeholder occurs
twice yields a duplicated name in the error, and a matched value that
itself contains placeholder syntax survives into the successful result. -/
theorem replace_variables_counterexample :
    replace_variables "\x7b\x7ba\x7d\x7d \x7b\x7ba\x7d\x7d" []
        = Except.error "Missing variables: a, a"
    ∧ replace_variables "\x7b\x7ba\x7d\x7d" [("a", "\x7b\x7bb\x7d\x7d")]
        = Except.ok "\x7b\x7bb\x7d\x7d"
    ∧ findPlaceholders "\x7b\x7bb\x7d\x7d".toList = ["b"] :=
  ⟨rfl, rfl, by decide⟩

/-- C1 (amended): the message loop of `Executor::execute` propagates the
error of the first message whose substitution fails, without examining
the remaining messages. -/
theorem buildMessages_first_error (pre : List Message) (msg : Message) (post : List Message)
    (vars : List (String × String)) (e : String)
    (hpre : ∀ m ∈ pre, ∃ s, replace_variables m.content vars = Except.ok s)
    (hmsg : replace_variables msg.content vars = Except.error e) :
    buildMessages (pre ++ msg :: post) vars = Except.error e := by
  induction pre with
  | nil => simp [buildMessages, hmsg]
  | cons m pre ih =>
    obtain ⟨s, hs⟩ := hpre m (by simp)
    have ih2 := ih (fun m hm => hpre m (by simp [hm]))
    simp [buildMessages, hs, ih2]

theorem buildMessages_first_error_witness :
    buildMessages [⟨MessageRole.User, "\x7b\x7bxx\x7d\x7d"⟩,
        ⟨MessageRole.User, "\x7b\x7byy\x7d\x7d"⟩] []
      = Except.error "Missing variables: xx" :=
  buildMessages_first_error [] ⟨MessageRole.User, "\x7b\x7bxx\x7d\x7d"⟩
    [⟨MessageRole.User, "\x7b\x7byy\x7d\x7d"⟩] [] "Missing variables: xx"
    (by intro m hm; exact absurd hm (List.not_mem_nil m)) rfl

/-- C1 (counterexample): with two messages each missing a distinct
variable, the executor's loop reports only the first message's missing
variable; the second name appears nowhere in the error. -/
theorem buildMessages_counterexample :
    buildMessages [⟨MessageRole.User, "\x7b\x7bxx\x7d\x7d"⟩,
        ⟨MessageRole.User, "\x7b\x7byy\x7d\x7d"⟩] []
      = Except.error "Missing variables: xx"
    ∧ containsSubstr "Missing variables: xx".toList "yy".toList = false :=
  ⟨rfl, by decide⟩

/-- C2: given a parsed response whose `choices` array is empty, the
adapter's `choices[0]` indexing panics instead of returning an error. -/
theorem empty_choices_panics (i : String) (usage : OpenAIUsage) :
    extractOutput { id := i, choices := [], usage := usage }
      = AdapterResult.panicked "index out of bounds: the len is 0 but the index is 0" := rfl

/-- C4: the cost is exactly `input_tokens/1e6 * input_price +
output_tokens/1e6 * output_price` for the table entry of
`(provider, model)`, and every pair reaching a default arm of the table
costs exactly zero (never an error). -/
theorem calculate_cost_spec (model : String) (provider : Provider)
    (input_tokens output_tokens : Nat) :
    calculate_cost model provider input_tokens output_tokens
        = ((input_tokens : ℚ) / 1000000) * (priceTable provider model).1
          + ((output_tokens : ℚ) / 1000000) * (priceTable provider model).2
    ∧ (inPriceTable provider model = false →
        calculate_cost model provider input_tokens output_tokens = 0) := by
  constructor
  · rfl
  · intro h
    cases provider
    case OpenAI =>
      simp only [calculate_cost, priceTable, inPriceTable, Bool.or_eq_false_iff,
        beq_eq_false_iff_ne, beq_iff_eq] at h ⊢
      obtain ⟨⟨⟨⟨h1, h2⟩, h3⟩, h4⟩, h5⟩ := h
      split_ifs with g1
      · exact absurd g1 h1
      · norm_num
    case Anthropic =>
      simp only [calculate_cost, priceTable, inPriceTable, Bool.or_eq_false_iff,
        beq_eq_false_iff_ne, beq_iff_eq] at h ⊢
      obtain ⟨⟨⟨h1, h2⟩, h3⟩, h4⟩ := h
      split_ifs with g1
      · exact absurd g1 h1
      · norm_num
    case DeepSeek => exact absurd h (by simp [inPriceTable])
    case OpenRouter => exact absurd h (by simp [inPriceTable])
    case Ollama => exact absurd h (by simp [inPriceTable])
    case AiHubMix => exact absurd h (by simp [inPriceTable])
    case Google => exact absurd h (by simp [inPriceTable])
    case GitHub => exact absurd h (by simp [inPriceTable])
    case AzureOpenAI =>
      simp only [calculate_cost, priceTable]
      norm_num
    case Custom =>
      simp only [calculate_cost, priceTable]
      norm_num

theorem calculate_cost_spec_witness :
    inPriceTable Provider.Custom "some-model" = false
    ∧ calculate_cost "some-model" Provider.Custom 3 5 = 0 :=
  ⟨by decide, (calculate_cost_spec "some-model" Provider.Custom 3 5).2 (by decide)⟩


/-- C5: the dispatcher sends each implemented `Provider` variant to its
adapter with the correct default base URL, returns a descriptive
not-implemented error for `Google`, `GitHub` and `AzureOpenAI`, and for
`Custom` without a caller-supplied base URL returns a configuration
error without invoking any adapter. -/
theorem dispatch_routing_spec (model : String) (messages : List OpenAIMessage)
    (temperature : ℚ) (api_key : String) (base_url : Option String) (url : String) :
    execute_with_provider Provider.OpenAI model messages temperature api_key base_url
        = DispatchResult.openaiCall model messages temperature api_key none "OpenAI"
    ∧ execute_with_provider Provider.Anthropic model messages temperature api_key base_url
        = DispatchResult.anthropicCall model messages temperature api_key
    ∧ execute_with_provider Provider.DeepSeek model messages temperature api_key base_url
        = DispatchResult.openaiCall model messages temperature api_key
            (some (base_url.getD "https://api.deepseek.com")) "DeepSeek"
    ∧ execute_with_provider Provider.OpenRouter model messages temperature api_key base_url
        = DispatchResult.openaiCall model messages temperature api_key
            (some (base_url.getD "https://openrouter.ai/api/v1")) "OpenRouter"
    ∧ execute_with_provider Provider.Ollama model messages temperature api_key base_url
        = DispatchResult.openaiCall model messages temperature ""
            (some (base_url.getD "http://localhost:11434/v1")) "Ollama"
    ∧ execute_with_provider Provider.AiHubMix model messages temperature api_key base_url
        = DispatchResult.openaiCall model messages temperature api_key
            (some (base_url.getD "https://aihubmix.com/v1")) "AiHubMix"
    ∧ execute_with_provider Provider.Custom model messages temperature api_key none
        = DispatchResult.error "Custom provider requires base_url"
    ∧ execute_with_provider Provider.Custom model messages temperature api_key (some url)
        = DispatchResult.openaiCall model messages temperature api_key (some url) "Custom"
    ∧ execute_with_provider Provider.Google model messages temperature api_key base_url
        = DispatchResult.error
            "Google Gemini API format is different, requires separate implementation"
    ∧ execute_with_provider Provider.GitHub model messages temperature api_key base_url
        = DispatchResult.error "GitHub Copilot not yet implemented"
    ∧ execute_with_provider Provider.AzureOpenAI model messages temperature api_key base_url
        = DispatchResult.error "Azure OpenAI requires deployment-specific URL configuration" :=
  ⟨rfl, rfl, rfl, rfl, rfl, rfl, rfl, rfl, rfl, rfl, rfl⟩

/-- C6 (counterexample): the keychain's get-by-key maps both the
store's no-entry outcome and a platform failure through the same
`map_err`, producing the one string error with the identical
`API key not found: ` prefix (the first 19 characters agree), not two
distinct variants. -/
theorem get_api_key_counterexample :
    get_api_key (Except.ok ()) (Except.error KeyringError.noEntry)
        = Except.error "API key not found: No matching entry found in secure storage"
    ∧ get_api_key (Except.ok ())
        (Except.error (KeyringError.platformFailure "platform secure storage failure"))
        = Except.error "API key not found: platform secure storage failure"
    ∧ "API key not found: No matching entry found in secure storage".toList.take 19
        = "API key not found: platform secure storage failure".toList.take 19 :=
  ⟨rfl, rfl, by decide⟩

/-- C6 (amended): every `get_password` failure — no-entry and
store-unavailable alike — is mapped to the single string-error form
`API key not found: ` followed by the external store's own message, so
the two outcomes are not distinguished by error variant. -/
theorem get_api_key_uniform_error (e : KeyringError) :
    get_api_key (Except.ok ()) (Except.error e)
      = Except.error ("API key not found: " ++ e.message) := rfl

/-- C7: the adapter attaches the `Authorization: Bearer` header exactly
when the API key is non-empty, and attaches the OpenRouter
identification headers exactly when the resolved base URL contains the
marketplace host `openrouter.ai`. -/
theorem openai_headers_spec (api_key url_base : String) :
    (("Authorization", "Bearer " ++ api_key) ∈ buildHeaders api_key url_base ↔ api_key ≠ "")
    ∧ (("HTTP-Referer", "https://vibebase.dev") ∈ buildHeaders api_key url_base
        ↔ containsSubstr url_base.toList "openrouter.ai".toList = true)
    ∧ (("X-Title", "VibeBase") ∈ buildHeaders api_key url_base
        ↔ containsSubstr url_base.toList "openrouter.ai".toList = true) := by
  unfold buildHeaders
  by_cases hk : api_key = "" <;>
    by_cases hr : containsSubstr url_base.toList "openrouter.ai".toList = true <;>
      simp_all

theorem openai_headers_spec_witness :
    ("Authorization", "Bearer sk-test") ∈ buildHeaders "sk-test" "https://api.openai.com/v1"
    ∧ ("X-Title", "VibeBase") ∈ buildHeaders "" "https://openrouter.ai/api/v1" :=
  ⟨(openai_headers_spec "sk-test" "https://api.openai.com/v1").1.mpr (by decide),
   (openai_headers_spec "" "https://openrouter.ai/api/v1").2.2.mpr (by decide)⟩

/-- C8 (counterexample): a base URL with a trailing slash is not
normalized — the adapter produces a double slash in the request URL. -/
theorem buildUrl_counterexample :
    buildUrl (some "https://api.deepseek.com/") = "https://api.deepseek.com//chat/completions"
    ∧ containsSubstr (buildUrl (some "https://api.deepseek.com/")).toList
        "//chat/completions".toList = true :=
  ⟨rfl, by decide⟩

/-- C8 (amended): the adapter builds the request URL by plain
concatenation of the base URL (or the OpenAI default) with
`/chat/completions`; the appended suffix never introduces a `/v1`
segment, but trailing slashes are not normalized. -/
theorem buildUrl_spec (u : String) :
    buildUrl (some u) = u ++ "/chat/completions"
    ∧ buildUrl none = "https://api.openai.com/v1/chat/completions"
    ∧ containsSubstr "/chat/completions".toList "/v1".toList = false :=
  ⟨rfl, rfl, by decide⟩

/-- C9: the executor takes the temperature from
`prompt.config.parameters.temperature` when the parameters block and
the field are both present, and `0.7` when either is absent. -/
theorem resolve_temperature_spec (parameters : Option ModelParameters) :
    (∀ p t, parameters = some p → p.temperature = some t →
      resolveTemperature parameters = t)
    ∧ (parameters = none → resolveTemperature parameters = 0.7)
    ∧ (∀ p, parameters = some p → p.temperature = none →
      resolveTemperature parameters = 0.7) := by
  refine ⟨?_, ?_, ?_⟩
  · intro p t hp ht
    subst hp
    simp [resolveTemperature, ht]
  · intro hp
    subst hp
    rfl
  · intro p hp ht
    subst hp
    simp [resolveTemperature, ht]

theorem resolve_temperature_spec_witness :
    resolveTemperature (some { temperature := some 0.2, top_p := none, max_tokens := none })
        = 0.2
    ∧ resolveTemperature none = 0.7 :=
  ⟨(resolve_temperature_spec _).1 _ 0.2 rfl rfl,
   (resolve_temperature_spec none).2.1 rfl⟩

/-- C10: the dispatcher invokes the Ollama adapter with the empty
credential regardless of the supplied API key, so two runs with
different credentials produce identical adapter invocations, and the
empty credential never yields an `Authorization` header. -/
theorem ollama_credential_independence (model : String) (messages : List OpenAIMessage)
    (temperature : ℚ) (key1 key2 : String) (base_url : Option String) :
    execute_with_provider Provider.Ollama model messages temperature key1 base_url
        = execute_with_provider Provider.Ollama model messages temperature key2 base_url
    ∧ execute_with_provider Provider.Ollama model messages temperature key1 base_url
        = DispatchResult.openaiCall model messages temperature ""
            (some (base_url.getD "http://localhost:11434/v1")) "Ollama"
    ∧ (∀ u v, ("Authorization", v) ∉ buildHeaders "" u) := by
  refine ⟨rfl, rfl, ?_⟩
  intro u v hv
  by_cases hr : containsSubstr u.toList "openrouter.ai".toList = true <;>
    simp_all [buildHeaders]

theorem ollama_credential_independence_witness :
    execute_with_provider Provider.Ollama "llama3" [] 1 "secret-key" none
        = execute_with_provider Provider.Ollama "llama3" [] 1 "" none
    ∧ ("Authorization", "Bearer secret-key") ∉ buildHeaders "" "http://localhost:11434/v1" :=
  ⟨(ollama_credential_independence "llama3" [] 1 "secret-key" "" none).1,
   (ollama_credential_independence "llama3" [] 1 "secret-key" "" none).2.2
      "http://localhost:11434/v1" "Bearer secret-key"⟩

end VibeBase
